import Mathlib

/-!
# Verification of the HbarSuite client service

A shallow embedding of `src/client.service.ts` (class `ClientService`): node
selection (`generateBaseUrl`), the Web3 authentication handshake
(`connectToNode`, `signNodeData`), the failover policy (`networkResilience`),
startup (`onModuleInit`) and the recurring health-check task.

Modelling conventions:
* JavaScript values that may be `undefined` are `Option`s; a thrown JS error
  is an `Except.error`.
* `Math.random()` results are rationals `r` with `0 ≤ r < 1`, supplied as an
  explicit stream; `Math.floor` is the integer floor on `ℚ`.
* The HTTP transport is an environment: each handshake attempt consumes one
  `Attempt` describing how the two requests of that attempt fare.
* `JSON.stringify` is modelled on a `Json` inductive, with object fields kept
  in insertion order, exactly as V8 serializes string-keyed object literals.
-/

namespace HbarClient

/-- A JSON value, used for the opaque bodies exchanged with a node
(challenge payload, server signature, login response, profile body). -/
inductive Json where
  | null
  | bool (b : Bool)
  | num (n : Int)
  | str (s : String)
  | arr (xs : List Json)
  | obj (fields : List (String × Json))
  deriving Repr

/-- Escape of one character inside a JSON string literal
(quotes and backslashes; control characters do not occur in our inputs). -/
def jsonEscapeChar (c : Char) : String :=
  if c = '"' then "\\\"" else if c = '\\' then "\\\\" else String.singleton c

/-- A JSON string literal: `"..."` with characters escaped. -/
def jsonQuote (s : String) : String :=
  "\"" ++ String.join (s.toList.map jsonEscapeChar) ++ "\""

mutual

/-- Model of `JSON.stringify`: object fields are rendered in insertion order. -/
def Json.stringify : Json → String
  | .null => "null"
  | .bool true => "true"
  | .bool false => "false"
  | .num n => toString n
  | .str s => jsonQuote s
  | .arr xs => "[" ++ stringifyArr xs ++ "]"
  | .obj fs => "\x7b" ++ stringifyObj fs ++ "\x7d"

/-- Comma-separated serialization of the elements of a JSON array. -/
def stringifyArr : List Json → String
  | [] => ""
  | [x] => Json.stringify x
  | x :: y :: xs => Json.stringify x ++ "," ++ stringifyArr (y :: xs)

/-- Comma-separated `"key":value` serialization of JSON object fields,
in insertion order. -/
def stringifyObj : List (String × Json) → String
  | [] => ""
  | [(k, v)] => jsonQuote k ++ ":" ++ Json.stringify v
  | (k, v) :: f :: fs => jsonQuote k ++ ":" ++ Json.stringify v ++ "," ++ stringifyObj (f :: fs)

end

/-- The operator identity from `clientOptions.operator`:
`{accountId, privateKey, publicKey, url}`. -/
structure ConfigOperator where
  accountId : String
  privateKey : String
  publicKey : String
  url : String
  deriving Repr

/-- Options (`IClient.IOptions`) as consumed by the service: an optional pinned
`baseUrl` and the operator identity. -/
structure ClientOptions where
  baseUrl : Option String
  operator : ConfigOperator
  deriving Repr

/-- JS truthiness of `this.clientOptions.baseUrl`: `undefined` and the empty
string are falsy, any other string is truthy. -/
def ClientOptions.baseUrlSet (cfg : ClientOptions) : Bool :=
  match cfg.baseUrl with
  | none => false
  | some s => !s.data.isEmpty

/-- JS `String.prototype.startsWith`, written over the character lists so
that it evaluates by kernel reduction. -/
def jsStartsWith (s pat : String) : Bool :=
  pat.data.isPrefixOf s.data

/-- The operator record found at `node.membership.operator`
(`ISmartNetwork.IOperator.IEntity`; only the fields the service reads). -/
structure NodeOperator where
  accountId : String
  url : String
  deriving Repr, DecidableEq

/-- Field `membership` of a directory entry. -/
structure Membership where
  operator : NodeOperator
  deriving Repr, DecidableEq

/-- One directory entry (`ISmartNetwork.INetwork.IEntity`) as returned by
`smartConfigService.getNodes()`. -/
structure NetworkEntity where
  membership : Membership
  deriving Repr, DecidableEq

/-- A thrown JavaScript error, as far as the service inspects it. -/
inductive JsError where
  /-- The `TypeError` raised inside `generateBaseUrl` when
  `network[randomNode]` is `undefined` (no node at the computed index, which
  with `0 ≤ r < 1` happens exactly for an empty snapshot): reading
  `.membership` of `undefined` throws.  This is the spec's `EmptyDirectory`
  failure; a `TypeError` carries no `code` property. -/
  | emptyDirectory
  /-- Any other error, inspected only through its `code` property
  (`undefined` when absent). -/
  | transport (code : Option String)
  deriving Repr, DecidableEq

/-- Reading `error.code`: `undefined` on a `TypeError`. -/
def JsError.code : JsError → Option String
  | .emptyDirectory => none
  | .transport c => c

/-- JavaScript array indexing `xs[i]` for an integer index:
`undefined` (`none`) when `i` is negative or past the end. -/
def listGetInt {α : Type} (xs : List α) (i : Int) : Option α :=
  if h : 0 ≤ i ∧ i.toNat < xs.length then some (xs.get ⟨i.toNat, h.2⟩) else none

/-- The random index computed at line 130:
`Math.floor(Math.random() * (network.length - 1))`, where `network.length - 1`
is JS number arithmetic (so `-1` on an empty snapshot). -/
def selectedIndex (len : Nat) (r : ℚ) : Int :=
  ⌊r * ((len : ℚ) - 1)⌋

/-- Function `generateBaseUrl` (lines 128–133): fetch the snapshot, compute the random
index, read `network[randomNode].membership.operator` — a `TypeError` if the
index has no entry — and return the operator together with its `url`.
The caller stores the operator into `this._operator`. -/
def generateBaseUrl (nodes : List NetworkEntity) (r : ℚ) :
    Except JsError (NodeOperator × String) :=
  match listGetInt nodes (selectedIndex nodes.length r) with
  | some node => .ok (node.membership.operator, node.membership.operator.url)
  | none => .error .emptyDirectory

/-- The challenge returned by `GET /auth/web3/request`:
`authRequest.data.signedData.signature` and `authRequest.data.payload`. -/
structure AuthChallenge where
  signature : Json
  payload : Json
  deriving Repr

/-- The signed payload built at lines 206–209:
`{serverSignature: ..., originalPayload: ...}` (in this field order). -/
structure SignedPayloadT where
  serverSignature : Json
  originalPayload : Json
  deriving Repr

/-- The byte serialization signed in `signNodeData`:
`JSON.stringify(payload)` of the object literal
`{serverSignature, originalPayload}`, whose fields stringify in insertion
order.  The signed bytes are the UTF-8 bytes of this string, so byte equality
is equality of these strings. -/
def serializePayload (p : SignedPayloadT) : String :=
  Json.stringify (.obj [("serverSignature", p.serverSignature),
                        ("originalPayload", p.originalPayload)])

/-- The `nft` stub in the envelope: `{id: null, serialNumber: null}`. -/
structure NftRef where
  id : Option String
  serialNumber : Option Int
  deriving Repr

/-- The `operator` block of the login envelope. -/
structure OperatorBlock where
  accountId : String
  publicKey : String
  url : String
  nft : NftRef
  deriving Repr

/-- The `signedData` block of the login envelope. -/
structure SignedData where
  signedPayload : SignedPayloadT
  userSignature : List Nat
  deriving Repr

/-- The login envelope (`IAuth...ISignin.ILogin`) POSTed to
`/auth/web3/login`. -/
structure SigninLogin where
  signedData : SignedData
  operator : OperatorBlock
  deriving Repr

/-- The black-box signature primitive `PrivateKey.sign` applied to the
private key parsed from `clientOptions.operator.privateKey`; the spec treats
the signing scheme as external, so the whole development is parametric in it. -/
def SignFn : Type := String → String → List Nat

/-- Function `signNodeData` (lines 274–295): serialize the payload, sign the bytes
with the operator's private key, and build the envelope carrying the payload
unchanged plus the configured operator identity. -/
def signNodeData (sign : SignFn) (cfg : ClientOptions) (payload : SignedPayloadT) :
    SigninLogin :=
  let bytes := serializePayload payload
  let signature := sign cfg.operator.privateKey bytes
  { signedData := { signedPayload := payload, userSignature := signature },
    operator := { accountId := cfg.operator.accountId,
                  publicKey := cfg.operator.publicKey,
                  url := cfg.operator.url,
                  nft := { id := none, serialNumber := none } } }

/-- The mutable fields of the service together with the transport's
`defaults.baseURL`, plus a count of the live `setInterval` tasks. -/
structure St where
  /-- Transport state `this.httpService.axiosRef.defaults.baseURL` (`undefined` initially). -/
  baseURL : Option String
  /-- Field `this._operator`. -/
  operator : Option NodeOperator
  /-- Field `this._login`, what the `login` getter returns. -/
  login : Option Json
  /-- Number of recurring health-check tasks currently scheduled. -/
  intervals : Nat
  deriving Repr

/-- The state of a freshly constructed service: nothing assigned yet. -/
def St.initial : St := ⟨none, none, none, 0⟩

/-- How one handshake attempt fares at the transport: the GET of the
challenge rejects, or the POST of the login rejects, or both succeed. -/
inductive Attempt where
  | getFail (e : JsError)
  | postFail (ch : AuthChallenge) (e : JsError)
  | success (ch : AuthChallenge) (login : Json)
  deriving Repr

/-- Observable actions of a run: the HTTP requests issued, log lines, and
interval scheduling. -/
inductive Event where
  | get (base : Option String) (path : String)
  | post (base : Option String) (path : String) (body : SigninLogin)
  | logVerbose (msg : String)
  | logError (msg : String)
  | setIntervalEv
  | clearIntervalEv
  deriving Repr

/-- Is this event an HTTP request (a handshake or health-check call)? -/
def Event.isRequest : Event → Bool
  | .get _ _ => true
  | .post _ _ _ => true
  | _ => false

/-- The static data of a run: configuration, the directory snapshot served
by `smartConfigService.getNodes()`, and the signing primitive. -/
structure Sys where
  cfg : ClientOptions
  nodes : List NetworkEntity
  sign : SignFn

/-- The next `Math.random()` value of the stream (a stream never runs dry;
an exhausted list keeps yielding `0`). -/
def nextRand (rand : List ℚ) : ℚ := rand.headD 0

/-- Function `networkResilience` (lines 179–185): if `error.code` is one of
`ECONNREFUSED`, `ECONNABORTED`, `ECONNRESET`, pick a new node with
`generateBaseUrl` (consuming one random value, storing the operator) and
assign the transport's base URL; otherwise rethrow the error.  A failure
inside `generateBaseUrl` propagates out. -/
def networkResilience (sys : Sys) (e : JsError) (rand : List ℚ) (st : St) :
    Except JsError (St × List ℚ) :=
  if (["ECONNREFUSED", "ECONNABORTED", "ECONNRESET"].map Option.some).contains e.code then
    match generateBaseUrl sys.nodes (nextRand rand) with
    | .ok ou => .ok ({ st with operator := some ou.1, baseURL := some ou.2 }, rand.tail)
    | .error e2 => .error e2
  else
    .error e

/-- The `catch` block of `connectToNode` (lines 229–240), up to the recursive
retry: with a (truthy) pinned base URL reject with the incoming error;
otherwise run `networkResilience`, and reject with whatever it throws.
`.ok` means "retry the handshake with this updated state". -/
def catchStep (sys : Sys) (e : JsError) (rand : List ℚ) (st : St) :
    Except JsError (St × List ℚ) :=
  if sys.cfg.baseUrlSet then .error e
  else networkResilience sys e rand st

/-- Result of running `connectToNode` against a finite environment. -/
structure COut where
  /-- Value `none` when the environment ran out of attempts (the run is still in
  flight); otherwise the settled promise. -/
  result : Option (Except JsError Json)
  st : St
  rand : List ℚ
  /-- Attempts not consumed. -/
  rem : List Attempt
  /-- Events emitted, in order. -/
  evs : List Event
  deriving Repr

/-- Function `connectToNode` (lines 201–242).  Each attempt: GET
`/auth/web3/request`; on success build the signed payload, sign it, POST the
envelope to `/auth/web3/login`; on success schedule the recurring
health-check and resolve with the login response body.  On an error at either
request, run the `catch` block; if it yields a retry, recurse. -/
def connectToNode (sys : Sys) : List Attempt → List ℚ → St → COut
  | [], rand, st => ⟨none, st, rand, [], []⟩
  | .success ch l :: rest, rand, st =>
      let body := signNodeData sys.sign sys.cfg
        { serverSignature := ch.signature, originalPayload := ch.payload }
      ⟨some (.ok l), { st with intervals := st.intervals + 1 }, rand, rest,
       [.get st.baseURL "/auth/web3/request",
        .post st.baseURL "/auth/web3/login" body,
        .setIntervalEv]⟩
  | .getFail e :: rest, rand, st =>
      let evs := [Event.get st.baseURL "/auth/web3/request"]
      match catchStep sys e rand st with
      | .ok (st2, rand2) =>
          let c := connectToNode sys rest rand2 st2
          { c with evs := evs ++ c.evs }
      | .error e2 => ⟨some (.error e2), st, rand, rest, evs⟩
  | .postFail ch e :: rest, rand, st =>
      let body := signNodeData sys.sign sys.cfg
        { serverSignature := ch.signature, originalPayload := ch.payload }
      let evs := [Event.get st.baseURL "/auth/web3/request",
                  Event.post st.baseURL "/auth/web3/login" body]
      match catchStep sys e rand st with
      | .ok (st2, rand2) =>
          let c := connectToNode sys rest rand2 st2
          { c with evs := evs ++ c.evs }
      | .error e2 => ⟨some (.error e2), st, rand, rest, evs⟩

/-- Template-literal rendering of a possibly-`undefined` string. -/
def showBase : Option String → String
  | some u => u
  | none => "undefined"

/-- Template-literal rendering of `error.code`. -/
def showCode : Option String → String
  | some c => c
  | none => "undefined"

/-- The message logged at lines 161–163:
`failed to connect to node: {defaults.baseURL}: {error.code}`. -/
def failMsg (base : Option String) (e : JsError) : String :=
  "failed to connect to node: " ++ showBase base ++ ": " ++ showCode e.code

/-- Step 1 of `onModuleInit` (lines 149–153): assign the transport's base URL
from the pinned configuration value if it is truthy, else from
`generateBaseUrl` (which also stores the chosen operator and consumes one
random value). -/
def resolveBase (sys : Sys) (rand : List ℚ) (st : St) :
    Except JsError (St × List ℚ) :=
  if sys.cfg.baseUrlSet then
    .ok ({ st with baseURL := sys.cfg.baseUrl }, rand)
  else
    match generateBaseUrl sys.nodes (nextRand rand) with
    | .ok ou => .ok ({ st with operator := some ou.1, baseURL := some ou.2 }, rand.tail)
    | .error e => .error e

/-- Result of `onModuleInit` or of a monitor tick. -/
structure MOut where
  st : St
  rand : List ℚ
  rem : List Attempt
  evs : List Event
  deriving Repr

/-- Function `onModuleInit` (lines 147–165): resolve the base URL; if it starts with
`http`, log, run `connectToNode` and store the resolved login into
`this._login`.  Every thrown error is caught at the top and logged with the
current base URL and the error's code; the method itself always returns
(it is total — nothing escapes the `catch`). -/
def onModuleInit (sys : Sys) (rand : List ℚ) (attempts : List Attempt) (st0 : St) :
    MOut :=
  match resolveBase sys rand st0 with
  | .error e =>
      ⟨st0, rand.tail, attempts, [.logError (failMsg st0.baseURL e)]⟩
  | .ok (st1, rand1) =>
      match st1.baseURL with
      | none => ⟨st1, rand1, attempts, []⟩
      | some u =>
        if jsStartsWith u "http" then
          let tryEv := Event.logVerbose ("trying to connect with " ++ u ++ "...")
          let c := connectToNode sys attempts rand1 st1
          match c.result with
          | some (.ok l) =>
              ⟨{ c.st with login := some l }, c.rand, c.rem,
               tryEv :: c.evs ++ [.logVerbose ("connected to node: " ++ showBase c.st.baseURL)]⟩
          | some (.error e) =>
              ⟨c.st, c.rand, c.rem,
               tryEv :: c.evs ++ [.logError (failMsg c.st.baseURL e)]⟩
          | none => ⟨c.st, c.rand, c.rem, tryEv :: c.evs⟩
        else
          ⟨st1, rand1, attempts, []⟩

/-- How one firing of the recurring health check fares: the
`GET /auth/profile` either succeeds, or rejects — in the latter case the
re-handshake runs against the supplied transport environment. -/
inductive TickOutcome where
  | profileOk (body : Json)
  | profileFail (e : JsError) (rand : List ℚ) (attempts : List Attempt)

/-- One firing of the interval callback (lines 218–226).  It only fires when
a recurring task is scheduled.  On a failed profile call: `clearInterval`
first, then re-run `connectToNode`; its resolved value is discarded (line 224
does not assign `this._login`), and a rejection is an unhandled promise
rejection inside the callback — nothing more happens. -/
def tick (sys : Sys) (o : TickOutcome) (st : St) : St × List Event :=
  if st.intervals = 0 then (st, [])
  else
    match o with
    | .profileOk _ => (st, [.get st.baseURL "/auth/profile"])
    | .profileFail _ rand attempts =>
        let st1 := { st with intervals := st.intervals - 1 }
        let c := connectToNode sys attempts rand st1
        (c.st, [.get st.baseURL "/auth/profile", .clearIntervalEv] ++ c.evs)

/-- A whole post-startup execution: the recurring task fires any number of
times, each firing with its own transport outcome. -/
def runTicks (sys : Sys) : List TickOutcome → St → St × List Event
  | [], st => (st, [])
  | o :: os, st =>
      let p := tick sys o st
      let q := runTicks sys os p.1
      (q.1, p.2 ++ q.2)

/-! ## Basic lemmas about the embedding -/

/-- On an empty snapshot every index misses: `network[randomNode]` is
`undefined` and `generateBaseUrl` throws, whatever `Math.random` returned. -/
theorem generateBaseUrl_nil (r : ℚ) :
    generateBaseUrl [] r = .error .emptyDirectory := by
  simp [generateBaseUrl, listGetInt]

/-- A successful `catch` block (a retry) only reassigns the operator and the
base URL; the stored login and the interval count are untouched, and exactly
one random value was consumed. -/
theorem catchStep_ok {sys : Sys} {e : JsError} {rand : List ℚ} {st st2 : St}
    {rand2 : List ℚ} (h : catchStep sys e rand st = .ok (st2, rand2)) :
    st2.login = st.login ∧ st2.intervals = st.intervals ∧ rand2 = rand.tail := by
  unfold catchStep networkResilience at h
  split at h
  · exact Except.noConfusion h
  · split at h
    · split at h
      · simp only [Except.ok.injEq, Prod.mk.injEq] at h
        obtain ⟨h1, h2⟩ := h
        subst h1 h2
        simp
      · exact Except.noConfusion h
    · exact Except.noConfusion h

/-- Function `connectToNode` never assigns `this._login` (the assignment happens in
`onModuleInit`); the resolved value is only returned. -/
theorem connectToNode_login (sys : Sys) (as : List Attempt) (rand : List ℚ)
    (st : St) : (connectToNode sys as rand st).st.login = st.login := by
  induction as generalizing rand st with
  | nil => rfl
  | cons a rest ih =>
    cases a with
    | success ch l => simp [connectToNode]
    | getFail e =>
      simp only [connectToNode]
      rcases h : catchStep sys e rand st with e2 | ⟨st2, rand2⟩
      · simp [h]
      · simpa [h, (catchStep_ok h).1] using ih rand2 st2
    | postFail ch e =>
      simp only [connectToNode]
      rcases h : catchStep sys e rand st with e2 | ⟨st2, rand2⟩
      · simp [h]
      · simpa [h, (catchStep_ok h).1] using ih rand2 st2

/-- A run of `connectToNode` schedules at most one new recurring task (only
the final, successful attempt reaches the `setInterval` call; every failed
attempt threw before it). -/
theorem connectToNode_intervals_le (sys : Sys) (as : List Attempt)
    (rand : List ℚ) (st : St) :
    (connectToNode sys as rand st).st.intervals ≤ st.intervals + 1 := by
  induction as generalizing rand st with
  | nil => exact Nat.le_succ _
  | cons a rest ih =>
    cases a with
    | success ch l => simp [connectToNode]
    | getFail e =>
      simp only [connectToNode]
      rcases h : catchStep sys e rand st with e2 | ⟨st2, rand2⟩
      · simp [h]
      · simpa [h, (catchStep_ok h).2.1] using ih rand2 st2
    | postFail ch e =>
      simp only [connectToNode]
      rcases h : catchStep sys e rand st with e2 | ⟨st2, rand2⟩
      · simp [h]
      · simpa [h, (catchStep_ok h).2.1] using ih rand2 st2

/-- Resolving the base URL (step 1 of `onModuleInit`) does not touch the
stored login or the scheduled tasks. -/
theorem resolveBase_ok {sys : Sys} {rand : List ℚ} {st st1 : St}
    {rand1 : List ℚ} (h : resolveBase sys rand st = .ok (st1, rand1)) :
    st1.login = st.login ∧ st1.intervals = st.intervals := by
  unfold resolveBase at h
  split at h
  · simp only [Except.ok.injEq, Prod.mk.injEq] at h
    obtain ⟨h1, -⟩ := h
    subst h1
    simp
  · split at h
    · simp only [Except.ok.injEq, Prod.mk.injEq] at h
      obtain ⟨h1, -⟩ := h
      subst h1
      simp
    · exact Except.noConfusion h

/-- Startup schedules at most one recurring task on top of what was already
scheduled (only a successful handshake reaches the `setInterval` call). -/
theorem onModuleInit_intervals_le (sys : Sys) (rand : List ℚ)
    (attempts : List Attempt) (st0 : St) :
    (onModuleInit sys rand attempts st0).st.intervals ≤ st0.intervals + 1 := by
  unfold onModuleInit
  split
  · exact Nat.le_succ _
  · rename_i st1 rand1 hres
    have h1 : st1.intervals = st0.intervals := (resolveBase_ok hres).2
    have hc := connectToNode_intervals_le sys attempts rand1 st1
    split
    · dsimp only
      omega
    · split
      · dsimp only
        rcases hr : (connectToNode sys attempts rand1 st1).result with - | (l | e) <;>
          (dsimp only; omega)
      · dsimp only
        omega

/-! ## Concrete fixtures used by witnesses and counterexamples -/

/-- Fixture: directory entry `node-a`. -/
def nodeA : NetworkEntity := ⟨⟨⟨"0.0.100", "http://node-a"⟩⟩⟩

/-- Fixture: directory entry `node-b`. -/
def nodeB : NetworkEntity := ⟨⟨⟨"0.0.101", "http://node-b"⟩⟩⟩

/-- Fixture: the operator identity of `clientOptions.operator`. -/
def cfgOperator : ConfigOperator := ⟨"0.0.2", "priv-key", "pub-key", "http://operator"⟩

/-- Fixture: a concrete signing primitive (the development is parametric in
the real scheme, so any function of the key and the bytes will do). -/
def signZero : SignFn := fun _ _ => []

/-- Fixture: configuration with a pinned base URL. -/
def sysFixed : Sys := ⟨⟨some "http://node-a", cfgOperator⟩, [nodeA, nodeB], signZero⟩

/-- Fixture: dynamic node selection over a one-entry snapshot. -/
def sysDyn : Sys := ⟨⟨none, cfgOperator⟩, [nodeA], signZero⟩

/-- Fixture: dynamic node selection over an empty snapshot. -/
def sysDynEmpty : Sys := ⟨⟨none, cfgOperator⟩, [], signZero⟩

/-- Fixture: a challenge body. -/
def chal : AuthChallenge := ⟨.str "SIG", .str "PAYLOAD"⟩

/-! ## The claims -/

/-- Claim C1: the claim says the random index of `generateBaseUrl` can take
every value in `[0, N-1]`.  It cannot: the code computes
`Math.floor(Math.random() * (network.length - 1))`, so for every snapshot of
size at least 2 and every `Math.random()` value `0 ≤ r < 1` the index lies in
`[0, N-2]` — the last entry is never selectable.  This theorem evaluates the
code's index computation at the failing inputs, confirming the very
off-by-one the spec calls a bug. -/
theorem selectedIndex_never_last (len : Nat) (r : ℚ)
    (hlen : 2 ≤ len) (h0 : 0 ≤ r) (h1 : r < 1) :
    0 ≤ selectedIndex len r ∧ selectedIndex len r < (len : Int) - 1 := by
  have hpos : (0 : ℚ) < (len : ℚ) - 1 := by
    have h2 : (2 : ℚ) ≤ (len : ℚ) := by exact_mod_cast hlen
    linarith
  constructor
  · apply Int.le_floor.mpr
    push_cast
    exact mul_nonneg h0 (le_of_lt hpos)
  · apply Int.floor_lt.mpr
    push_cast
    calc r * ((len : ℚ) - 1) < 1 * ((len : ℚ) - 1) :=
          mul_lt_mul_of_pos_right h1 hpos
      _ = (len : ℚ) - 1 := one_mul _

/-- Witness for `selectedIndex_never_last`: a snapshot of size 2 with
`Math.random() = 0` — index 1 (the last entry) is not reached. -/
theorem selectedIndex_never_last_witness :
    0 ≤ selectedIndex 2 0 ∧ selectedIndex 2 0 < (2 : Int) - 1 :=
  selectedIndex_never_last 2 0 (by decide) (le_refl 0) zero_lt_one

/-- Claim C3: with a (truthy) pinned `baseUrl`, an error of any kind at either
handshake request rejects with that very error: the returned `COut` shows the
same error, an untouched state (no operator change — `generateBaseUrl` was
not invoked), an untouched random stream (`Math.random` was not called), and
an untouched remaining environment (no retried handshake). -/
theorem fixed_baseUrl_error_fatal (sys : Sys) (e : JsError)
    (ch : AuthChallenge) (rest : List Attempt) (rand : List ℚ) (st : St)
    (hfix : sys.cfg.baseUrlSet = true) :
    connectToNode sys (.getFail e :: rest) rand st =
      ⟨some (.error e), st, rand, rest, [.get st.baseURL "/auth/web3/request"]⟩
    ∧ connectToNode sys (.postFail ch e :: rest) rand st =
      ⟨some (.error e), st, rand, rest,
       [.get st.baseURL "/auth/web3/request",
        .post st.baseURL "/auth/web3/login"
          (signNodeData sys.sign sys.cfg
            { serverSignature := ch.signature, originalPayload := ch.payload })]⟩ := by
  constructor <;> simp [connectToNode, catchStep, hfix]

/-- Witness for `fixed_baseUrl_error_fatal`: a pinned base URL rejects even a
`ECONNREFUSED` (otherwise recoverable) challenge failure as fatal. -/
theorem fixed_baseUrl_error_fatal_witness :
    connectToNode sysFixed [.getFail (.transport (some "ECONNREFUSED"))] []
        St.initial =
      ⟨some (.error (.transport (some "ECONNREFUSED"))), St.initial, [], [],
       [.get none "/auth/web3/request"]⟩ :=
  (fixed_baseUrl_error_fatal sysFixed (.transport (some "ECONNREFUSED")) chal
    [] [] St.initial rfl).1

/-- Claim C6: a successful handshake attempt performs, in order: the GET of
`/auth/web3/request`; the construction of the signed payload
`{serverSignature := response.signedData.signature,
originalPayload := response.payload}`; its signing via `signNodeData` into
the envelope; the POST of the envelope to `/auth/web3/login`; the scheduling
of the recurring health check; and resolution with the login response body. -/
theorem handshake_steps (sys : Sys) (ch : AuthChallenge) (l : Json)
    (rest : List Attempt) (rand : List ℚ) (st : St) :
    connectToNode sys (.success ch l :: rest) rand st =
      ⟨some (.ok l), { st with intervals := st.intervals + 1 }, rand, rest,
       [.get st.baseURL "/auth/web3/request",
        .post st.baseURL "/auth/web3/login"
          (signNodeData sys.sign sys.cfg
            { serverSignature := ch.signature, originalPayload := ch.payload }),
        .setIntervalEv]⟩ := rfl

/-- Claim C2: on an empty directory snapshot, node selection fails with the
no-nodes-available error (`JsError.emptyDirectory`, the spec's
`EmptyDirectory`), and no handshake follows the failure: at startup,
`onModuleInit` logs the failure and issues no request at all; and when the
failure happens during failover, the pending `connectToNode` rejects without
consuming any further attempt. -/
theorem empty_directory_fatal (sys : Sys) (r : ℚ) (rand : List ℚ)
    (attempts rest : List Attempt) (st0 st : St) (e : JsError)
    (hnodes : sys.nodes = []) (hdyn : sys.cfg.baseUrlSet = false)
    (hlogin : st0.login = none) :
    generateBaseUrl sys.nodes r = .error .emptyDirectory
    ∧ onModuleInit sys rand attempts st0 =
        ⟨st0, rand.tail, attempts, [.logError (failMsg st0.baseURL .emptyDirectory)]⟩
    ∧ (onModuleInit sys rand attempts st0).st.login = none
    ∧ (∀ ev ∈ (onModuleInit sys rand attempts st0).evs, ev.isRequest = false)
    ∧ (e.code = some "ECONNREFUSED" →
        connectToNode sys (.getFail e :: rest) rand st =
          ⟨some (.error .emptyDirectory), st, rand, rest,
           [.get st.baseURL "/auth/web3/request"]⟩) := by
  have hgen : ∀ q : ℚ, generateBaseUrl sys.nodes q = .error .emptyDirectory := by
    intro q
    rw [hnodes]
    exact generateBaseUrl_nil q
  have hinit : onModuleInit sys rand attempts st0 =
      ⟨st0, rand.tail, attempts, [.logError (failMsg st0.baseURL .emptyDirectory)]⟩ := by
    unfold onModuleInit resolveBase
    simp [hdyn, hgen]
  refine ⟨hgen r, hinit, ?_, ?_, ?_⟩
  · rw [hinit]
    exact hlogin
  · rw [hinit]
    simp [Event.isRequest]
  · intro hcode
    simp [connectToNode, catchStep, networkResilience, hdyn, hcode, hgen]

/-- Witness for `empty_directory_fatal`: dynamic selection over the empty
snapshot fails at startup with only the error log emitted, and a recoverable
transport failure cannot fail over when the snapshot is empty. -/
theorem empty_directory_fatal_witness :
    onModuleInit sysDynEmpty [] [.success chal (.str "T1")] St.initial =
      ⟨St.initial, [], [.success chal (.str "T1")],
       [.logError "failed to connect to node: undefined: undefined"]⟩
    ∧ connectToNode sysDynEmpty
        [.getFail (.transport (some "ECONNREFUSED"))] [] St.initial =
      ⟨some (.error .emptyDirectory), St.initial, [], [],
       [.get none "/auth/web3/request"]⟩ :=
  ⟨(empty_directory_fatal sysDynEmpty 0 [] [.success chal (.str "T1")] []
      St.initial St.initial (.transport (some "ECONNREFUSED")) rfl rfl rfl).2.1,
   (empty_directory_fatal sysDynEmpty 0 [] [.success chal (.str "T1")] []
      St.initial St.initial (.transport (some "ECONNREFUSED")) rfl rfl rfl).2.2.2.2 rfl⟩

/-- Claim C4: `networkResilience` treats an error as recoverable exactly when
`error.code` is `ECONNREFUSED`, `ECONNABORTED` or `ECONNRESET`; a
non-recoverable error is rethrown unchanged; a recoverable one re-runs node
selection and installs the new base URL (and operator), after which the
enclosing `connectToNode` retries the handshake — its next challenge request
is issued against the newly selected base URL. -/
theorem networkResilience_policy (sys : Sys) (e : JsError) (rand : List ℚ)
    (st : St) (rest : List Attempt) :
    ((["ECONNREFUSED", "ECONNABORTED", "ECONNRESET"].map Option.some).contains
        e.code = true
      ↔ e.code = some "ECONNREFUSED" ∨ e.code = some "ECONNABORTED" ∨
        e.code = some "ECONNRESET")
    ∧ ((["ECONNREFUSED", "ECONNABORTED", "ECONNRESET"].map Option.some).contains
        e.code = false → networkResilience sys e rand st = .error e)
    ∧ (∀ op url,
        (["ECONNREFUSED", "ECONNABORTED", "ECONNRESET"].map Option.some).contains
          e.code = true →
        generateBaseUrl sys.nodes (nextRand rand) = .ok (op, url) →
        networkResilience sys e rand st =
          .ok ({ st with operator := some op, baseURL := some url }, rand.tail)
        ∧ (sys.cfg.baseUrlSet = false →
            connectToNode sys (.getFail e :: rest) rand st =
              (let c := connectToNode sys rest rand.tail
                  { st with operator := some op, baseURL := some url }
               { c with evs := .get st.baseURL "/auth/web3/request" :: c.evs }))) := by
  refine ⟨?_, ?_, ?_⟩
  · simp
  · intro hrec
    unfold networkResilience
    rw [hrec]
    simp
  · intro op url hrec hgen
    have hnr : networkResilience sys e rand st =
        .ok ({ st with operator := some op, baseURL := some url }, rand.tail) := by
      unfold networkResilience
      rw [hrec, hgen]
      simp
    refine ⟨hnr, ?_⟩
    intro hdyn
    simp [connectToNode, catchStep, hdyn, hnr]

/-- Witness for `networkResilience_policy`: a `ECONNRESET` against the
one-node dynamic configuration re-selects `node-a` and retries, while an
error with a non-listed code (`ENOTFOUND`) is rethrown unchanged. -/
theorem networkResilience_policy_witness :
    networkResilience sysDyn (.transport (some "ENOTFOUND")) [] St.initial =
      .error (.transport (some "ENOTFOUND"))
    ∧ networkResilience sysDyn (.transport (some "ECONNRESET")) [0] St.initial =
      .ok ({ St.initial with
              operator := some nodeA.membership.operator
              baseURL := some "http://node-a" }, []) :=
  ⟨(networkResilience_policy sysDyn (.transport (some "ENOTFOUND")) []
      St.initial []).2.1 rfl,
   ((networkResilience_policy sysDyn (.transport (some "ECONNRESET")) [0]
      St.initial []).2.2 nodeA.membership.operator "http://node-a" rfl
      (by simp [generateBaseUrl, selectedIndex, listGetInt, sysDyn, nodeA])).1⟩

/-- Claim C7: the byte serialization `signNodeData` signs is
`JSON.stringify({serverSignature, originalPayload})`: it has a fixed field
order with `serverSignature` first, and it depends on nothing but the two
payload fields — two payloads with equal fields serialize to identical bytes,
so two runs on the same payload sign the same bytes.  The returned envelope
carries the input payload unchanged as `signedData.signedPayload`, the
signature of exactly those bytes, and the configured operator's `accountId`,
`publicKey` and `url` (with the constant null `nft` stub). -/
theorem signNodeData_deterministic (sign : SignFn) (cfg : ClientOptions)
    (p q : SignedPayloadT)
    (hsig : q.serverSignature = p.serverSignature)
    (hpay : q.originalPayload = p.originalPayload) :
    serializePayload p =
      "\x7b\"serverSignature\":" ++ Json.stringify p.serverSignature ++
      ",\"originalPayload\":" ++ Json.stringify p.originalPayload ++ "\x7d"
    ∧ serializePayload q = serializePayload p
    ∧ (signNodeData sign cfg p).signedData.signedPayload = p
    ∧ (signNodeData sign cfg p).signedData.userSignature =
        sign cfg.operator.privateKey (serializePayload p)
    ∧ (signNodeData sign cfg p).operator =
        ⟨cfg.operator.accountId, cfg.operator.publicKey, cfg.operator.url,
         ⟨none, none⟩⟩ := by
  refine ⟨?_, ?_, rfl, rfl, rfl⟩
  · have h1 : ("\x7b\"serverSignature\":" : String) =
        "\x7b" ++ jsonQuote "serverSignature" ++ ":" := rfl
    have h2 : (",\"originalPayload\":" : String) =
        "," ++ jsonQuote "originalPayload" ++ ":" := rfl
    rw [h1, h2]
    simp only [serializePayload, Json.stringify, stringifyObj]
    simp [String.append_assoc]
  · simp [serializePayload, hsig, hpay]

/-- Witness for `signNodeData_deterministic`: two copies of the same
concrete challenge payload serialize to the same explicit byte string, and
the envelope built from it carries the payload and the configured operator. -/
theorem signNodeData_deterministic_witness :
    serializePayload ⟨.str "SIG", .str "PAYLOAD"⟩ =
      "\x7b\"serverSignature\":\"SIG\",\"originalPayload\":\"PAYLOAD\"\x7d"
    ∧ (signNodeData signZero ⟨some "http://node-a", cfgOperator⟩
        ⟨.str "SIG", .str "PAYLOAD"⟩).signedData.signedPayload =
      (⟨.str "SIG", .str "PAYLOAD"⟩ : SignedPayloadT)
    ∧ (signNodeData signZero ⟨some "http://node-a", cfgOperator⟩
        ⟨.str "SIG", .str "PAYLOAD"⟩).operator =
      ⟨"0.0.2", "pub-key", "http://operator", ⟨none, none⟩⟩ := by
  have h := signNodeData_deterministic signZero ⟨some "http://node-a", cfgOperator⟩
    ⟨.str "SIG", .str "PAYLOAD"⟩ ⟨.str "SIG", .str "PAYLOAD"⟩ rfl rfl
  exact ⟨by rw [h.1]; rfl, h.2.2.1, by rw [h.2.2.2.2]; rfl⟩

/-- Claim C8: `onModuleInit` is a total function — every error of the startup
handshake is consumed by its top-level `catch`, never rethrown.  When node
selection fails, the run produces exactly one `failed to connect` error log
built from the attempted base URL and the error's code, and the login stays
absent; when the handshake fails, the run ends with that error log and the
login stays absent as well. -/
theorem onModuleInit_errors_caught (sys : Sys) (rand : List ℚ)
    (attempts : List Attempt) (st0 : St) (e : JsError)
    (hlogin : st0.login = none) :
    (sys.cfg.baseUrlSet = false →
      generateBaseUrl sys.nodes (nextRand rand) = .error e →
      onModuleInit sys rand attempts st0 =
        ⟨st0, rand.tail, attempts, [.logError (failMsg st0.baseURL e)]⟩)
    ∧ (∀ st1 rand1 u, resolveBase sys rand st0 = .ok (st1, rand1) →
        st1.baseURL = some u → jsStartsWith u "http" = true →
        (connectToNode sys attempts rand1 st1).result = some (.error e) →
        (onModuleInit sys rand attempts st0).st.login = none
        ∧ (onModuleInit sys rand attempts st0).evs.getLast? =
            some (.logError
              (failMsg (connectToNode sys attempts rand1 st1).st.baseURL e))) := by
  constructor
  · intro hdyn hgen
    unfold onModuleInit resolveBase
    simp [hdyn, hgen]
  · intro st1 rand1 u hres hbase hsw hfail
    have hrun : onModuleInit sys rand attempts st0 =
        ⟨(connectToNode sys attempts rand1 st1).st,
         (connectToNode sys attempts rand1 st1).rand,
         (connectToNode sys attempts rand1 st1).rem,
         .logVerbose ("trying to connect with " ++ u ++ "...") ::
           (connectToNode sys attempts rand1 st1).evs ++
           [.logError (failMsg (connectToNode sys attempts rand1 st1).st.baseURL e)]⟩ := by
      unfold onModuleInit
      rw [hres]
      simp [hbase, hsw, hfail]
    rw [hrun]
    constructor
    · rw [connectToNode_login]
      rw [(resolveBase_ok hres).1]
      exact hlogin
    · exact List.getLast?_concat _

/-- Witness for `onModuleInit_errors_caught`: a fatal handshake failure at
startup against the pinned base URL leaves the login absent and ends the log
with the failure line carrying the URL and the code. -/
theorem onModuleInit_errors_caught_witness :
    (onModuleInit sysFixed [] [.getFail (.transport (some "EFATAL"))]
        St.initial).st.login = none
    ∧ (onModuleInit sysFixed [] [.getFail (.transport (some "EFATAL"))]
        St.initial).evs.getLast? =
      some (.logError "failed to connect to node: http://node-a: EFATAL") :=
  (onModuleInit_errors_caught sysFixed [] [.getFail (.transport (some "EFATAL"))]
    St.initial (.transport (some "EFATAL")) rfl).2
    { St.initial with baseURL := some "http://node-a" } [] "http://node-a"
    rfl rfl rfl rfl

/-- The callback of a firing never leaves the interval count above one: the
recurring task is cancelled before the re-handshake starts, and the
re-handshake schedules at most one new task. -/
theorem tick_intervals_le (sys : Sys) (o : TickOutcome) (st : St)
    (h : st.intervals ≤ 1) : (tick sys o st).1.intervals ≤ 1 := by
  unfold tick
  split
  · exact h
  · match o with
    | .profileOk _ => exact h
    | .profileFail e rand attempts =>
        simp only
        calc (connectToNode sys attempts rand
                { st with intervals := st.intervals - 1 }).st.intervals
            ≤ (st.intervals - 1) + 1 := connectToNode_intervals_le ..
          _ ≤ 1 := by omega

/-- Claim C9: at most one recurring health-check task is ever scheduled: a
startup from a fresh state ends with at most one task (only a successful
handshake creates one), and any sequence of health-check firings preserves
the bound — a failing firing cancels the current task before the
re-handshake, which schedules at most one new task. -/
theorem single_monitor_task (sys : Sys) (rand : List ℚ)
    (attempts : List Attempt) (ticks : List TickOutcome) (st0 : St)
    (h0 : st0.intervals = 0) :
    (onModuleInit sys rand attempts st0).st.intervals ≤ 1
    ∧ ∀ st : St, st.intervals ≤ 1 → (runTicks sys ticks st).1.intervals ≤ 1 := by
  constructor
  · have h := onModuleInit_intervals_le sys rand attempts st0
    omega
  · induction ticks with
    | nil => intro st h; exact h
    | cons o os ih =>
        intro st h
        simp only [runTicks]
        exact ih _ (tick_intervals_le sys o st h)

/-- Witness for `single_monitor_task`: a successful startup schedules exactly
one task, and a failing firing followed by a successful re-handshake still
leaves exactly one. -/
theorem single_monitor_task_witness :
    (onModuleInit sysFixed [] [.success chal (.str "T1")] St.initial).st.intervals ≤ 1
    ∧ ∀ st : St, st.intervals ≤ 1 →
        (runTicks sysFixed
          [.profileFail (.transport (some "ECONNRESET")) []
            [.success chal (.str "T2")]] st).1.intervals ≤ 1 :=
  single_monitor_task sysFixed [] [.success chal (.str "T1")]
    [.profileFail (.transport (some "ECONNRESET")) [] [.success chal (.str "T2")]]
    St.initial rfl

/-- Claim C10: if the resolved base URL does not start with `http` — whether it
came from the pinned configuration or from node selection — `onModuleInit`
skips the handshake entirely: it returns with no event at all (no request,
no log line, no error) and an untouched environment, assigning only the base
URL (and, in the dynamic case, the selected operator); the stored login is
left as it was. -/
theorem non_http_base_url_skips_handshake (sys : Sys) (rand : List ℚ)
    (attempts : List Attempt) (st0 : St) (u : String) (op : NodeOperator) :
    (sys.cfg.baseUrl = some u → sys.cfg.baseUrlSet = true →
      jsStartsWith u "http" = false →
      onModuleInit sys rand attempts st0 =
        ⟨{ st0 with baseURL := some u }, rand, attempts, []⟩)
    ∧ (sys.cfg.baseUrlSet = false →
      generateBaseUrl sys.nodes (nextRand rand) = .ok (op, u) →
      jsStartsWith u "http" = false →
      onModuleInit sys rand attempts st0 =
        ⟨{ st0 with operator := some op, baseURL := some u }, rand.tail,
         attempts, []⟩) := by
  constructor
  · intro hurl hfix hsw
    unfold onModuleInit resolveBase
    rw [hfix]
    simp [hurl, hsw]
  · intro hdyn hgen hsw
    unfold onModuleInit resolveBase
    rw [hdyn]
    simp [hgen, hsw]

/-- Witness for `non_http_base_url_skips_handshake`: a pinned base URL
`ws://node-a` makes startup a no-op (login stays absent, nothing logged, no
request issued, the environment untouched). -/
theorem non_http_base_url_skips_handshake_witness :
    onModuleInit ⟨⟨some "ws://node-a", cfgOperator⟩, [nodeA], signZero⟩ []
        [.success chal (.str "T1")] St.initial =
      ⟨{ St.initial with baseURL := some "ws://node-a" }, [],
       [.success chal (.str "T1")], []⟩ :=
  (non_http_base_url_skips_handshake ⟨⟨some "ws://node-a", cfgOperator⟩,
    [nodeA], signZero⟩ [] [.success chal (.str "T1")] St.initial "ws://node-a"
    nodeA.membership.operator).1 rfl rfl rfl

/-- One firing of the health check never reassigns the stored login: the
`catch` of the interval callback calls `connectToNode` again but discards its
resolved value (line 224 has no assignment to `this._login`). -/
theorem tick_login (sys : Sys) (o : TickOutcome) (st : St) :
    (tick sys o st).1.login = st.login := by
  unfold tick
  split
  · rfl
  · match o with
    | .profileOk _ => rfl
    | .profileFail e rand attempts =>
        exact connectToNode_login sys attempts rand { st with intervals := st.intervals - 1 }

/-- Claim C5, amended: the claim says a health-check-triggered re-handshake
replaces the stored credential.  It does not: across any sequence of
health-check firings — re-handshakes included, successful or not — the stored
login never changes, because the re-run's resolved credential is discarded;
the `login` getter keeps returning the credential stored by the startup
handshake.  (Only `onModuleInit` assigns `this._login`.) -/
theorem monitor_rehandshake_keeps_old_login (sys : Sys)
    (ticks : List TickOutcome) (st : St) :
    (runTicks sys ticks st).1.login = st.login := by
  induction ticks generalizing st with
  | nil => rfl
  | cons o os ih =>
      simp only [runTicks]
      rw [ih (tick sys o st).1]
      exact tick_login sys o st

/-- Claim C5, counterexample: a concrete run refuting the claim as stated:
startup succeeds with credential `T1`; a health-check failure triggers a
re-handshake that succeeds with credential `T2`; yet the stored login (what
the `login` getter returns) is still `T1`, not the credential of the most
recently completed handshake. -/
theorem monitor_rehandshake_counterexample :
    (connectToNode sysFixed [.success chal (.str "T2")] []
        { (onModuleInit sysFixed [] [.success chal (.str "T1")] St.initial).st with
          intervals := 0 }).result = some (.ok (.str "T2"))
    ∧ (tick sysFixed
        (.profileFail (.transport (some "ECONNRESET")) []
          [.success chal (.str "T2")])
        (onModuleInit sysFixed [] [.success chal (.str "T1")] St.initial).st).1.login =
      some (.str "T1")
    ∧ some (Json.str "T1") ≠ some (Json.str "T2") := by
  refine ⟨rfl, rfl, ?_⟩
  intro h
  injection h with h1
  injection h1 with h2
  exact absurd h2 (by decide)

end HbarClient
